import Mathlib

/-!
Verification of the episode multi-agent workflow of the podcast-show
repository: a shallow embedding of the orchestrator, the State Agent, the
Scene Planner call sites, the Music/SFX agents and the Episode Bible
persistence layer, together with proofs of the specified invariants.

Sources embedded:
- packages/agents/src/base/types.ts (data model)
- packages/agents/src/episodes: orchestrator, state-agent, scene-planner,
  music-agent, sfx-agent
- packages/agents/src/tools/episode-bible-tools.ts
- apps/web/supabase/schemas/16-episode-bible.sql (unique index on
  episode_bibles(episode_id))

External structured-generation calls (`generateObject` / `generateText`)
return schema-validated values; they are modelled as explicit parameters,
constrained exactly by the zod schemas that validate them in the source.
-/

set_option linter.unusedVariables false

namespace PodcastShow

/-! ## Data model (base/types.ts) -/

/-- The two selectable branches of a scene (`'A' | 'B'`). -/
inductive Choice where
  | A
  | B
deriving DecidableEq, Repr

/-- Generation priority enum (`'low' | 'medium' | 'high'`). -/
inductive Priority where
  | low
  | medium
  | high
deriving DecidableEq, Repr

/-- Pacing enum of the Episode Bible (`'fast' | 'moderate' | 'slow'`). -/
inductive Pacing where
  | fast
  | moderate
  | slow
deriving DecidableEq, Repr

/-- Complexity enum (`'simple' | 'moderate' | 'complex'`). -/
inductive Complexity where
  | simple
  | moderate
  | complex
deriving DecidableEq, Repr

/-- Audio intensity enum (`'subtle' | 'moderate' | 'dramatic'`). -/
inductive IntensityRange where
  | subtle
  | moderate
  | dramatic
deriving DecidableEq, Repr

/-- Audio cue type (`'music' | 'sfx'`). -/
inductive CueType where
  | music
  | sfx
deriving DecidableEq, Repr

/-- An anchor: a narrative element that can pay off later. -/
structure Anchor where
  id : String
  description : String
  isUsed : Bool
  createdAtScene : Int
deriving DecidableEq, Repr

/-- The rolling story-state document.  The TypeScript interface lists
`storySoFar`, `keyFacts`, `anchors`; the State Agent's implementation and
the database default additionally carry a `themes` array (always reset to
`[]` by the agent), so it is kept here to embed those writes faithfully. -/
structure StateCard where
  storySoFar : String
  keyFacts : List String
  themes : List String
  anchors : List Anchor
deriving DecidableEq, Repr

/-- An audio cue as produced by the Scene Planner's generation schema. -/
structure SceneAudioCue where
  type : CueType
  trigger : String
  description : String
  timing : Option ℚ
  priority : Priority
  duration : Option ℚ
  intensity : IntensityRange
  audioDirection : String
deriving DecidableEq, Repr

/-- A story scene.  `stateUpdate` is a `Record<string, any>` in the source;
its payload is opaque to every property proved here, so it is modelled as
an association list of string values. -/
structure Scene where
  id : String
  episodeId : String
  sceneNumber : Int
  narration : String
  choiceA : String
  choiceB : String
  chosenOption : Option Choice
  stateUpdate : List (String × String)
  audioCues : List SceneAudioCue
  createdAt : String
deriving DecidableEq, Repr

/-- Episode lifecycle status (`'active' | 'completed' | 'abandoned'`). -/
inductive EpisodeStatus where
  | active
  | completed
  | abandoned
deriving DecidableEq, Repr

/-- An episode record. -/
structure Episode where
  id : String
  accountId : String
  createdBy : String
  title : String
  premise : String
  stateCard : StateCard
  status : EpisodeStatus
  createdAt : String
  completedAt : Option String
  totalScenes : Int
  totalChoices : Int
deriving DecidableEq, Repr

/-! ## Episode Bible (base/types.ts `EpisodeBible`) -/

/-- World rules block of the Episode Bible. -/
structure WorldRules where
  genre : String
  style : String
  tone : String
  setting : String
  timeframe : String
  coreConflict : String
  worldLogic : List String
deriving DecidableEq, Repr

/-- Storytelling guidelines block of the Episode Bible. -/
structure StorytellingGuidelines where
  narrativeVoice : String
  pacing : Pacing
  complexity : Complexity
  atmosphereKeywords : List String
  choicePhilosophy : String
  sceneStructureNotes : String
deriving DecidableEq, Repr

/-- Character framework block of the Episode Bible. -/
structure CharacterFramework where
  protagonistTypes : List String
  antagonistTypes : List String
  supportingTypes : List String
  characterVoiceGuidelines : String
deriving DecidableEq, Repr

/-- Conflict patterns block of the Episode Bible. -/
structure ConflictPatterns where
  typicalConflicts : List String
  escalationPattern : String
  resolutionApproach : String
deriving DecidableEq, Repr

/-- Audio direction block of the Episode Bible. -/
structure AudioDirection where
  musicStyle : String
  commonSFXTypes : List String
  audioIntensityRange : IntensityRange
  atmosphereNotes : String
deriving DecidableEq, Repr

/-- Story arc guidance block of the Episode Bible. -/
structure StoryArcGuidance where
  expectedProgression : String
  keyFactTypes : List String
  likelyAnchorTypes : List String
  finaleExpectation : String
deriving DecidableEq, Repr

/-- The one-per-episode creative specification (WorldBible). -/
structure EpisodeBible where
  worldRules : WorldRules
  storytellingGuidelines : StorytellingGuidelines
  characterFramework : CharacterFramework
  conflictPatterns : ConflictPatterns
  audioDirection : AudioDirection
  storyArcGuidance : StoryArcGuidance
  consistencyRules : List String
  reasoning : String
deriving DecidableEq, Repr

/-- A JavaScript `Error` thrown or returned by the embedded code,
identified by its message. -/
structure JsError where
  message : String
deriving DecidableEq, Repr

/-! ## State Agent (episodes/state-agent.ts) -/

/-- Schema of the structured-generation result consumed by
`StateAgent.updateStateCard` (the zod schema at its `generateObject` call:
`storySoFar`, `keyFacts`, `anchors`, `reasoning`; the anchors carry an
unconstrained `isUsed : boolean`). -/
structure StateUpdateGen where
  storySoFar : String
  keyFacts : List String
  anchors : List Anchor
  reasoning : String
deriving DecidableEq, Repr

/-- Schema of the structured-generation result consumed by
`StateAgent.initializeStateCard`. -/
structure StateInitGen where
  storySoFar : String
  keyFacts : List String
  anchors : List Anchor
deriving DecidableEq, Repr

/-- `StateAgent.updateStateCard`.  The current card, scene, chosen option
and previous scenes only shape the generation prompt; the returned card is
built verbatim from the generation result, with `themes` reset to `[]`. -/
def updateStateCard (currentStateCard : StateCard) (newScene : Scene)
    (chosenOption : Choice) (allPreviousScenes : List Scene)
    (gen : StateUpdateGen) : StateCard :=
  { storySoFar := gen.storySoFar
    keyFacts := gen.keyFacts
    themes := []
    anchors := gen.anchors }

/-- `StateAgent.initializeStateCard`: the premise shapes only the prompt;
the card is built from the generation result with `themes := []`. -/
def initializeStateCard (premise : String) (gen : StateInitGen) : StateCard :=
  { storySoFar := gen.storySoFar
    keyFacts := gen.keyFacts
    themes := []
    anchors := gen.anchors }

/-- The per-anchor function mapped by `StateAgent.markAnchorAsUsed`:
`anchor.id === anchorId ? { ...anchor, isUsed: true } : anchor`. -/
def markFn (anchorId : String) (anchor : Anchor) : Anchor :=
  if anchor.id == anchorId then { anchor with isUsed := true } else anchor

/-- `StateAgent.markAnchorAsUsed`: pure, local flag set. -/
def markAnchorAsUsed (stateCard : StateCard) (anchorId : String) : StateCard :=
  { stateCard with anchors := stateCard.anchors.map (markFn anchorId) }

/-- JavaScript `Array.prototype.slice(-k)`: the most recent `k` elements. -/
def jsSliceLast (k : Nat) (l : List α) : List α :=
  l.drop (l.length - k)

/-- The anchor-retention predicate of `StateAgent.cleanupStateCard`:
`anchor.isUsed || (currentSceneNumber - anchor.createdAtScene) < 8`. -/
def keepAnchor (currentSceneNumber : Int) (anchor : Anchor) : Bool :=
  anchor.isUsed || decide (currentSceneNumber - anchor.createdAtScene < 8)

/-- `StateAgent.cleanupStateCard`: drops unused anchors that are 8+ scenes
old, keeps the 10 most recent key facts, resets `themes` to `[]`.  The
source marks it `async` but it performs no external call: it is pure. -/
def cleanupStateCard (stateCard : StateCard) (currentSceneNumber : Int) : StateCard :=
  { stateCard with
    keyFacts := jsSliceLast 10 stateCard.keyFacts
    themes := []
    anchors := stateCard.anchors.filter (keepAnchor currentSceneNumber) }

/-- Reads the `isUsed` flag of the first anchor with the given id. -/
def lookupAnchorUsed (card : StateCard) (anchorId : String) : Option Bool :=
  (card.anchors.find? (fun a => a.id == anchorId)).map Anchor.isUsed

/-- A State Tracker operation that mutates the card locally (no external
generation call): `markAnchorAsUsed` or `cleanupStateCard`. -/
inductive TrackerOp where
  | markUsed (anchorId : String)
  | cleanup (currentSceneNumber : Int)
deriving DecidableEq, Repr

/-- Applies a local State Tracker operation. -/
def applyTrackerOp (card : StateCard) : TrackerOp → StateCard
  | TrackerOp.markUsed anchorId => markAnchorAsUsed card anchorId
  | TrackerOp.cleanup n => cleanupStateCard card n

/-! ## Music Agent (episodes/music-agent.ts) -/

/-- The `MusicTrackSchema` payload: the structured-generation result of
`MusicAgent.generateSceneMusic`.  The zod schema constrains only
`duration` (`.min(10000).max(300000)`) and the `priority` enum; `prompt`
is a free string and `isInstrumental` an unconstrained boolean. -/
structure MusicTrack where
  prompt : String
  duration : Int
  isInstrumental : Bool
  priority : Priority
  trigger : String
  description : String
deriving DecidableEq, Repr

/-- Validity of a generation result under `MusicTrackSchema` (exactly the
zod bounds; note the schema does NOT require `isInstrumental = true` nor
any marker inside `prompt`). -/
def MusicTrackSchemaValid (track : MusicTrack) : Prop :=
  10000 ≤ track.duration ∧ track.duration ≤ 300000

instance (track : MusicTrack) : Decidable (MusicTrackSchemaValid track) :=
  inferInstanceAs (Decidable (_ ∧ _))

/-- The music `AudioCue` object literal returned by
`MusicAgent.generateSceneMusic` (its `type` field is the literal
`'music'`; the `metadata` record is inlined into this structure). -/
structure MusicAudioCue where
  trigger : String
  description : String
  timing : Int
  elevenLabsPrompt : String
  durationMs : Int
  isInstrumental : Bool
  priority : Priority
  sceneNumber : Int
  estimatedDurationSeconds : Int
deriving DecidableEq, Repr

/-- `MusicAgent.generateSceneMusic`: the Episode Bible and narration shape
only the generation prompt; the returned cue copies the validated
generation result verbatim (lines 89-103 of the source). -/
def generateSceneMusic (episodeBible : EpisodeBible) (narration : String)
    (sceneNumber : Int) (estimatedDurationSeconds : Int)
    (track : MusicTrack) : MusicAudioCue :=
  { trigger := track.trigger
    description := track.description
    timing := 0
    elevenLabsPrompt := track.prompt
    durationMs := track.duration
    isInstrumental := track.isInstrumental
    priority := track.priority
    sceneNumber := sceneNumber
    estimatedDurationSeconds := estimatedDurationSeconds }

/-- Prefix test on character lists. -/
def listHasPrefix : List Char → List Char → Bool
  | _, [] => true
  | [], _ :: _ => false
  | c :: cs, d :: ds => c == d && listHasPrefix cs ds

/-- Substring test on character lists. -/
def listContainsSubstr : List Char → List Char → Bool
  | [], pat => pat.isEmpty
  | c :: cs, pat => listHasPrefix (c :: cs) pat || listContainsSubstr cs pat

/-- Whether `sub` occurs literally inside `s`. -/
def containsSubstring (s sub : String) : Bool :=
  listContainsSubstr s.data sub.data

/-- The instrumental-only marker the spec requires inside every realized
music prompt. -/
def instrumentalMarker : String := "instrumental"

/-- Whether a realized prompt literally contains the instrumental-only
marker. -/
def hasInstrumentalMarker (s : String) : Bool :=
  containsSubstring s instrumentalMarker

/-! ## SFX Agent (episodes/sfx-agent.ts) -/

/-- SFX category enum of `SFXSchema`. -/
inductive SFXCategory where
  | simple
  | complex
  | musical
  | ambient
  | impact
  | oneShot
deriving DecidableEq, Repr

/-- One entry of the `SFXSchema` generation result (after zod applies the
`promptInfluence` default of 0.3 and the `loop` default of `false`). -/
structure SFXItem where
  text : String
  trigger : String
  durationSeconds : Option ℚ
  promptInfluence : ℚ
  loop : Bool
  timing : ℚ
  priority : Priority
  category : SFXCategory
deriving DecidableEq, Repr

/-- Validity of a generation result under `SFXSchema`: at most 8 entries
(`.max(8)`), each specified duration in `[0.5, 30]`, each
`promptInfluence` in `[0, 1]`. -/
def SFXSchemaValid (items : List SFXItem) : Prop :=
  items.length ≤ 8 ∧
    ∀ i ∈ items,
      (∀ d, i.durationSeconds = some d → (1 / 2 : ℚ) ≤ d ∧ d ≤ 30) ∧
      0 ≤ i.promptInfluence ∧ i.promptInfluence ≤ 1

/-- The sfx `AudioCue` object literal returned by the SFX Agent (its
`type` field is the literal `'sfx'`; the `metadata` record is inlined). -/
structure SFXAudioCue where
  trigger : String
  description : String
  timing : ℚ
  elevenLabsText : String
  durationSeconds : Option ℚ
  promptInfluence : ℚ
  loop : Bool
  priority : Priority
  category : SFXCategory
deriving DecidableEq, Repr

/-- `SFXAgent.generateSceneSFX`: maps the validated generation result to
audio cues, copying `text`, duration, influence, loop, priority and
category verbatim (lines 101-116 of the source). -/
def generateSceneSFX (episodeBible : EpisodeBible) (narration : String)
    (sceneNumber : Int) (gen : List SFXItem) : List SFXAudioCue :=
  gen.map (fun sfx =>
    { trigger := sfx.trigger
      description := sfx.text
      timing := sfx.timing
      elevenLabsText := sfx.text
      durationSeconds := sfx.durationSeconds
      promptInfluence := sfx.promptInfluence
      loop := sfx.loop
      priority := sfx.priority
      category := sfx.category })

/-- The ambient generation payload of
`SFXAgent.generateAmbientSoundscape`: its zod schema forces
`durationSeconds` into `[15, 30]` and `promptInfluence` into `[0, 1]`. -/
structure AmbientSoundGen where
  text : String
  durationSeconds : ℚ
  promptInfluence : ℚ
deriving DecidableEq, Repr

/-- Validity of an ambient generation result under its zod schema. -/
def AmbientSchemaValid (g : AmbientSoundGen) : Prop :=
  15 ≤ g.durationSeconds ∧ g.durationSeconds ≤ 30 ∧
    0 ≤ g.promptInfluence ∧ g.promptInfluence ≤ 1

/-- The fixed trigger of the ambient soundscape cue. -/
def ambientTrigger : String := "[SFX=ambient_background]"

/-- `SFXAgent.generateAmbientSoundscape`: returns a single cue with
`loop := true` hardcoded, priority `low`, category `ambient`, and the
schema-validated duration and influence copied verbatim. -/
def generateAmbientSoundscape (episodeBible : EpisodeBible)
    (sceneLocation sceneAtmosphere : String)
    (gen : AmbientSoundGen) : SFXAudioCue :=
  { trigger := ambientTrigger
    description := gen.text
    timing := 0
    elevenLabsText := gen.text
    durationSeconds := some gen.durationSeconds
    promptInfluence := gen.promptInfluence
    loop := true
    priority := Priority.low
    category := SFXCategory.ambient }

/-! ## Episode Bible persistence
(tools/episode-bible-tools.ts against schemas/16-episode-bible.sql) -/

/-- A row of the `episode_bibles` table (`id` primary key is generated
fresh on insert; `episode_id` carries the unique index
`episode_bibles_unique_per_episode`). -/
structure BibleRow where
  rowId : Nat
  episodeId : String
  bible : EpisodeBible
deriving DecidableEq, Repr

/-- The rows of `episode_bibles` holding a Bible for the given episode. -/
def biblesFor (tbl : List BibleRow) (epId : String) : List BibleRow :=
  tbl.filter (fun r => r.episodeId == epId)

/-- The `checkEpisodeBibleExists` tool: `select id ... .eq(episode_id)`. -/
def checkEpisodeBibleExistsDb (tbl : List BibleRow) (epId : String) : Bool :=
  tbl.any (fun r => r.episodeId == epId)

/-- The `loadEpisodeBible` tool: `select * ... .eq(episode_id).single()`,
converted back to an `EpisodeBible`. -/
def loadEpisodeBibleDb (tbl : List BibleRow) (epId : String) : Option EpisodeBible :=
  (tbl.find? (fun r => r.episodeId == epId)).map BibleRow.bible

/-- The `saveEpisodeBible` tool: `.upsert(dbData)` with the default
conflict target (the primary key `id`).  The inserted row carries a fresh
primary key, so the upsert never merges; it either inserts, or violates
the unique index `episode_bibles_unique_per_episode (episode_id)` and the
tool reports the error. -/
def saveEpisodeBibleDb (tbl : List BibleRow) (freshId : Nat) (epId : String)
    (b : EpisodeBible) : Except JsError (List BibleRow) :=
  if tbl.any (fun r => r.episodeId == epId) then
    Except.error ⟨"duplicate key value violates unique constraint episode_bibles_unique_per_episode"⟩
  else
    Except.ok (tbl ++ [⟨freshId, epId, b⟩])

/-- Steps 1-3 of the `startEpisode` workflow the orchestrator's system
prompt scripts (music-agent.ts lines 404-423): check whether an Episode
Bible exists; if it does, load it; if not, create one via the Story
Director (`created` is that generation result) and save it.  The save's
error branch is unreachable when the existence check was negative. -/
def startEpisodeBibleStep (tbl : List BibleRow) (freshId : Nat)
    (epId : String) (created : EpisodeBible) : List BibleRow × EpisodeBible :=
  match loadEpisodeBibleDb tbl epId with
  | some existing => (tbl, existing)
  | none =>
    match saveEpisodeBibleDb tbl freshId epId created with
    | Except.ok tbl2 => (tbl2, created)
    | Except.error _ => (tbl, created)

/-- A sequence of `start` calls against the same episode id: each call
carries the fresh primary key its insert would use and the Bible the
Story Director would create on that call.  Returns the final table and
the Bible each call handed back. -/
def runStartCalls (tbl : List BibleRow) (epId : String) :
    List (Nat × EpisodeBible) → List BibleRow × List EpisodeBible
  | [] => (tbl, [])
  | c :: cs =>
    let step := startEpisodeBibleStep tbl c.1 epId c.2
    let rest := runStartCalls step.1 epId cs
    (rest.1, step.2 :: rest.2)

/-! ## Episode Orchestrator (episodes/orchestrator.ts, embedded in the
music-agent.ts source part) -/

/-- The rolling window of 3 scenarios:
`{ current?: Scene; optionA?: Scene; optionB?: Scene }`. -/
structure ScenarioWindow where
  current : Option Scene
  optionA : Option Scene
  optionB : Option Scene
deriving DecidableEq, Repr

/-- The orchestrator-owned mutable state that `processChoice` touches:
the rolling window, plus the episode record whose status the claims
track. -/
structure OrchState where
  scenarioWindow : ScenarioWindow
  episode : Episode
deriving DecidableEq, Repr

/-- The result object of a successful `processChoice`. -/
structure ProcessChoiceOutcome where
  nextScene : Scene
  updatedStateCard : StateCard
  audioGenerated : Bool
deriving DecidableEq, Repr

/-- The message of the error `processChoice` throws when the rolling
window lacks the requested branch (the failure the spec names
`NoPregeneratedSceneError`). -/
def noPregeneratedSceneMessage : String :=
  "No pre-generated scenario available for choice"

/-- The message of the error thrown when the State Agent delegation
reported no success. -/
def stateAgentFailedMessage : String :=
  "State Agent failed to update state card"

/-- The choice text selected by `choice === 'A' ? scene.choiceA :
scene.choiceB`. -/
def chosenChoiceText (scene : Scene) (choice : Choice) : String :=
  match choice with
  | Choice.A => scene.choiceA
  | Choice.B => scene.choiceB

/-- `EpisodeOrchestrator.projectStateForChoice`: builds a fresh card via
object/array spread — the canonical card is left untouched — appending
the choice text to `storySoFar` and a `"Chose: <text>"` key fact. -/
def projectStateForChoice (stateCard : StateCard) (scene : Scene)
    (choice : Choice) : StateCard :=
  let choiceText := chosenChoiceText scene choice
  { stateCard with
    storySoFar := stateCard.storySoFar ++ " " ++ choiceText
    keyFacts := stateCard.keyFacts ++ ["Chose: " ++ choiceText] }

/-- `Promise.all` over the two branch generations: resolves only when
both resolve, rejects as soon as either rejects (the other branch's
result, even if successful, is discarded). -/
def promiseAllPair : Except JsError α → Except JsError β → Except JsError (α × β)
  | Except.ok a, Except.ok b => Except.ok (a, b)
  | Except.error e, _ => Except.error e
  | _, Except.error e => Except.error e

/-- `EpisodeOrchestrator.coordinateChildGeneration`: awaits both branch
scenarios with `Promise.all` and only then assigns
`scenarioWindow.optionA` / `scenarioWindow.optionB`.  The two branch
results (of `coordinateChildScenario` for choices A and B) are the
`optionAResult` / `optionBResult` parameters; on rejection the window
assignment never executes and the error propagates. -/
def coordinateChildGeneration (window : ScenarioWindow)
    (optionAResult optionBResult : Except JsError Scene) :
    ScenarioWindow × Except JsError Unit :=
  match promiseAllPair optionAResult optionBResult with
  | Except.ok (a, b) =>
    ({ window with optionA := some a, optionB := some b }, Except.ok ())
  | Except.error e => (window, Except.error e)

/-- `EpisodeOrchestrator.processChoice`, its deterministic tail (source
lines 809-838): take the pre-generated candidate from the rolling window
(throw if absent — before any state is touched), require the State Agent
delegation result, commit the window, pre-generate the children, and
return.  `stateUpdateResult` is the extracted `delegateToStateAgent`
result; `optionAResult`/`optionBResult` are the child-generation
outcomes. -/
def processChoice (st : OrchState) (choice : Choice)
    (stateUpdateResult : Option StateCard)
    (optionAResult optionBResult : Except JsError Scene) :
    OrchState × Except JsError ProcessChoiceOutcome :=
  let nextSceneOpt :=
    match choice with
    | Choice.A => st.scenarioWindow.optionA
    | Choice.B => st.scenarioWindow.optionB
  match nextSceneOpt with
  | none => (st, Except.error ⟨noPregeneratedSceneMessage⟩)
  | some nextScene =>
    match stateUpdateResult with
    | none => (st, Except.error ⟨stateAgentFailedMessage⟩)
    | some updatedStateCard =>
      let w1 : ScenarioWindow :=
        { current := some nextScene, optionA := none, optionB := none }
      let gen := coordinateChildGeneration w1 optionAResult optionBResult
      let st2 : OrchState := { st with scenarioWindow := gen.1 }
      match gen.2 with
      | Except.error e => (st2, Except.error e)
      | Except.ok _ =>
        (st2, Except.ok ⟨nextScene, updatedStateCard, false⟩)

/-! ## The Scene Planner call sites (claim C2)

`ScenePlannerAgent.generateScene` (scene-planner.ts) declares the
positional parameters `(premise, episodeBible, stateCard, sceneNumber,
callbackSuggestion?)`.  JavaScript binds call arguments positionally, so
the argument vectors actually passed are embedded as dynamic values. -/

/-- The callback suggestion produced by the Continuity Agent (the fields
the orchestrator inspects). -/
structure CallbackSuggestion where
  shouldUseCallback : Bool
  reason : String
deriving DecidableEq, Repr

/-- A dynamically-typed JavaScript argument as passed at a
`generateScene` call site. -/
inductive JsArg where
  | strArg (s : String)
  | cardArg (c : StateCard)
  | bibleArg (b : EpisodeBible)
  | numArg (n : Int)
  | suggestionArg (s : CallbackSuggestion)
  | undefinedArg
deriving DecidableEq, Repr

/-- Whether a dynamic argument is an Episode Bible. -/
def JsArg.isBibleArg : JsArg → Bool
  | JsArg.bibleArg _ => true
  | _ => false

/-- The declared positional parameters of
`ScenePlannerAgent.generateScene`. -/
def generateSceneParamNames : List String :=
  ["premise", "episodeBible", "stateCard", "sceneNumber", "callbackSuggestion"]

/-- The argument vector `EpisodeOrchestrator.coordinateChildScenario`
passes to `this.scenePlanner.generateScene` (source lines 879-884):
`(premise, projectedStateCard, parentScene.sceneNumber + 1,
callbackSuggestion.shouldUseCallback ? callbackSuggestion : undefined)` —
four positional arguments, none of them the Episode Bible. -/
def coordinateChildScenarioSceneArgs (premise : String)
    (stateCard : StateCard) (parentScene : Scene) (choice : Choice)
    (callbackSuggestion : CallbackSuggestion) : List JsArg :=
  [ JsArg.strArg premise,
    JsArg.cardArg (projectStateForChoice stateCard parentScene choice),
    JsArg.numArg (parentScene.sceneNumber + 1),
    if callbackSuggestion.shouldUseCallback then
      JsArg.suggestionArg callbackSuggestion
    else
      JsArg.undefinedArg ]

/-! ## Concrete sample values (used by witnesses and counterexamples) -/

/-- A concrete Episode Bible. -/
def sampleBible : EpisodeBible :=
  { worldRules :=
      ⟨"horror", "gothic horror", "dark", "a haunted amusement park",
        "night", "escape before dawn", []⟩
    storytellingGuidelines :=
      ⟨"second person", Pacing.moderate, Complexity.moderate,
        ["eerie", "fog"], "meaningful consequences", "three beats"⟩
    characterFramework := ⟨[], [], [], "distinct voices"⟩
    conflictPatterns := ⟨[], "rising dread", "earned resolutions"⟩
    audioDirection :=
      ⟨"dark ambient", ["creaks", "wind"], IntensityRange.moderate,
        "low drones under narration"⟩
    storyArcGuidance := ⟨"escalate", [], [], "resolve the haunting"⟩
    consistencyRules := []
    reasoning := "derived from the premise" }

/-- A concrete narration string. -/
def narrationSample : String :=
  "The rollercoaster shrieks to life in the dark."

/-- A concrete state card. -/
def sampleCard : StateCard :=
  ⟨"We are trapped in the park.", ["The gate is locked."], [],
    [⟨"a1", "the rusted gate key", false, 1⟩]⟩

/-- A concrete parent scene. -/
def sceneParentSample : Scene :=
  { id := "scene-1"
    episodeId := "ep-1"
    sceneNumber := 1
    narration := "The door creaks open onto a dark hallway."
    choiceA := "Enter the cellar"
    choiceB := "Climb the stairs"
    chosenOption := none
    stateUpdate := []
    audioCues := []
    createdAt := "2024-01-01T00:00:00Z" }

/-- A concrete pre-generated child for choice A. -/
def sceneChildA : Scene :=
  { sceneParentSample with
    id := "temp_scene-1_A_1"
    sceneNumber := 2
    narration := "The cellar smells of wet stone." }

/-- A concrete pre-generated child for choice B. -/
def sceneChildB : Scene :=
  { sceneParentSample with
    id := "temp_scene-1_B_1"
    sceneNumber := 2
    narration := "The stairs groan underfoot." }

/-- A concrete active episode. -/
def episodeSample : Episode :=
  { id := "ep-1"
    accountId := "acct-1"
    createdBy := "user-1"
    title := "The Mansion Mystery"
    premise := "We are trapped in a haunted amusement park"
    stateCard := sampleCard
    status := EpisodeStatus.active
    createdAt := "2024-01-01T00:00:00Z"
    completedAt := none
    totalScenes := 1
    totalChoices := 0 }

/-- C1 sample: episode id used by the single-Bible witness. -/
def epIdW : String := "ep-1"

/-- C1 sample: the Bible created by the first start call. -/
def bibleFirst : EpisodeBible := sampleBible

/-- C1 sample: the Bible the Story Director would produce on a second
start call (never persisted). -/
def bibleSecond : EpisodeBible :=
  { sampleBible with reasoning := "regenerated on the second start call" }

/-- C2 sample: a premise. -/
def premiseC2 : String := "We are trapped in a haunted amusement park"

/-- C2 sample: a continuity suggestion that declines a callback. -/
def suggestionC2 : CallbackSuggestion := ⟨false, "no dormant anchors yet"⟩

/-- C3/C4 sample: the error of a failed branch generation. -/
def genFailC3 : JsError := ⟨"schema validation failed for branch A"⟩

/-- C3 sample: the window before child pre-generation. -/
def windowC3 : ScenarioWindow := ⟨some sceneParentSample, none, none⟩

/-- C4 sample: a rolling window where only `optionB` is populated. -/
def windowC4 : ScenarioWindow := ⟨some sceneParentSample, none, some sceneChildB⟩

/-- C4 sample: the orchestrator state holding that window. -/
def orchStateC4 : OrchState := ⟨windowC4, episodeSample⟩

/-- C6 sample: the id of the paid-off anchor. -/
def anchorIdKey : String := "a1"

/-- C6 sample: an anchor already paid off. -/
def anchorUsedC6 : Anchor := ⟨"a1", "the mysterious key", true, 1⟩

/-- C6 sample: the same anchor, reverted to unused by a generation
result. -/
def anchorRevertedC6 : Anchor := ⟨"a1", "the mysterious key", false, 1⟩

/-- C6 sample: a card whose anchor `a1` is used. -/
def cardC6 : StateCard :=
  ⟨"We found the key.", ["Key found"], [], [anchorUsedC6]⟩

/-- C6 sample: a schema-valid `updateStateCard` generation result whose
anchors revert `a1` to unused (the zod schema never constrains
`isUsed`). -/
def genC6 : StateUpdateGen :=
  ⟨"We lost track of the key.", ["Key found"], [anchorRevertedC6],
    "model rewrote the anchor list"⟩

/-- C6 sample: a sequence of local State Tracker operations. -/
def opsC6 : List TrackerOp :=
  [TrackerOp.cleanup 20, TrackerOp.markUsed ("b9"), TrackerOp.cleanup 30]

/-- C7 sample: a used anchor (retained by cleanup at any age). -/
def anchorUsedC7 : Anchor := ⟨"a1", "paid off long ago", true, 1⟩

/-- C7 sample: an unused anchor 19 scenes old (dropped by cleanup). -/
def anchorOldC7 : Anchor := ⟨"a2", "stale and unused", false, 1⟩

/-- C7 sample: a card carrying both anchors. -/
def cardC7 : StateCard :=
  ⟨"story so far", ["f1", "f2"], [], [anchorUsedC7, anchorOldC7]⟩

/-- C9 sample: a schema-valid music generation result that is NOT
instrumental and whose prompt lacks the instrumental-only marker
(`MusicTrackSchema` only bounds the duration). -/
def trackC9 : MusicTrack :=
  ⟨"Fast tense strings at 120 BPM with driving percussion", 20000, false,
    Priority.medium, "[MUSIC=background]", "Tense chase music"⟩

/-- C9 sample: a well-behaved music generation result. -/
def trackC9ok : MusicTrack :=
  ⟨"Slow eerie piano, instrumental only, 60 BPM", 60000, true,
    Priority.high, "[MUSIC=background]", "Eerie background"⟩

/-- C10 sample: a schema-valid SFX entry. -/
def sfxItemW : SFXItem :=
  ⟨"Heavy wooden door creaking open", "[SFX=door_creak]", some 3, 1,
    false, 2, Priority.medium, SFXCategory.simple⟩

/-- C10 sample: a schema-valid ambient generation result. -/
def ambientGenW : AmbientSoundGen :=
  ⟨"Wind whistling through bare trees", 20, 0⟩

/-! ## Helper lemmas -/

/-- Filtering twice with the same predicate equals filtering once. -/
theorem filter_self_idem (p : α → Bool) (l : List α) :
    (l.filter p).filter p = l.filter p := by
  induction l with
  | nil => rfl
  | cons x xs ih => cases hp : p x <;> simp [List.filter_cons, hp, ih]

/-- `slice(-k)` keeps at most `k` elements. -/
theorem jsSliceLast_length_le (k : Nat) (l : List α) :
    (jsSliceLast k l).length ≤ k := by
  simp [jsSliceLast]
  omega

/-- `slice(-k)` of a list that already fits is the identity. -/
theorem jsSliceLast_of_le (k : Nat) (l : List α) (h : l.length ≤ k) :
    jsSliceLast k l = l := by
  unfold jsSliceLast
  have hz : l.length - k = 0 := by omega
  rw [hz, List.drop_zero]

/-- `slice(-k)` is idempotent. -/
theorem jsSliceLast_idem (k : Nat) (l : List α) :
    jsSliceLast k (jsSliceLast k l) = jsSliceLast k l :=
  jsSliceLast_of_le k _ (jsSliceLast_length_le k l)

/-- `slice(-k)` keeps the most recent elements: a suffix of the input. -/
theorem jsSliceLast_suffix (k : Nat) (l : List α) :
    jsSliceLast k l <:+ l :=
  List.drop_suffix _ _

/-! ## Claim theorems -/

/-- Claim C5: for every StateCard, parent scene and choice, the projected
StateCard has `storySoFar` extended by the chosen branch's choice text,
`keyFacts` extended by a `"Chose: <text>"` entry, and the anchors (and
themes) unchanged.  The source builds the projection with object/array
spread, so the canonical input card is never mutated — in this pure
embedding that is inherent. -/
theorem projectStateForChoice_spec (stateCard : StateCard) (scene : Scene)
    (choice : Choice) :
    (projectStateForChoice stateCard scene choice).storySoFar
        = stateCard.storySoFar ++ " " ++ chosenChoiceText scene choice ∧
    (projectStateForChoice stateCard scene choice).keyFacts
        = stateCard.keyFacts ++ ["Chose: " ++ chosenChoiceText scene choice] ∧
    (projectStateForChoice stateCard scene choice).anchors = stateCard.anchors ∧
    (projectStateForChoice stateCard scene choice).themes = stateCard.themes :=
  ⟨rfl, rfl, rfl, rfl⟩

/-- Claim C7: cleanup is pure and removes exactly the anchors that are
unused and at least 8 scenes old (the code's configured age threshold),
always retaining used anchors, and returns at most the 10 most recent key
facts (the code's configured cap). -/
theorem cleanupStateCard_spec (card : StateCard) (n : Int) :
    (∀ a, a ∈ (cleanupStateCard card n).anchors ↔
        a ∈ card.anchors ∧ (a.isUsed = true ∨ n - a.createdAtScene < 8)) ∧
    (∀ a, a ∈ card.anchors → a.isUsed = true →
        a ∈ (cleanupStateCard card n).anchors) ∧
    (cleanupStateCard card n).keyFacts.length ≤ 10 ∧
    (cleanupStateCard card n).keyFacts <:+ card.keyFacts ∧
    (cleanupStateCard card n).storySoFar = card.storySoFar := by
  have hmem : ∀ a, a ∈ (cleanupStateCard card n).anchors ↔
      a ∈ card.anchors ∧ (a.isUsed = true ∨ n - a.createdAtScene < 8) := by
    intro a
    simp [cleanupStateCard, keepAnchor, List.mem_filter, Bool.or_eq_true,
      decide_eq_true_iff]
  exact ⟨hmem, fun a ha hu => (hmem a).mpr ⟨ha, Or.inl hu⟩,
    jsSliceLast_length_le 10 card.keyFacts,
    jsSliceLast_suffix 10 card.keyFacts, rfl⟩

/-- Claim C7 witness: on a concrete card at scene 20, the used anchor is
retained and the key-fact cap holds. -/
theorem cleanupStateCard_spec_witness :
    anchorUsedC7 ∈ (cleanupStateCard cardC7 20).anchors ∧
    (cleanupStateCard cardC7 20).keyFacts.length ≤ 10 :=
  ⟨((cleanupStateCard_spec cardC7 20).1 anchorUsedC7).mpr
      ⟨by decide, Or.inl rfl⟩,
    (cleanupStateCard_spec cardC7 20).2.2.1⟩

/-- Claim C8: cleanup is idempotent — applying it twice with the same
current scene number equals applying it once. -/
theorem cleanupStateCard_idempotent (card : StateCard) (n : Int) :
    cleanupStateCard (cleanupStateCard card n) n = cleanupStateCard card n := by
  simp [cleanupStateCard, filter_self_idem, jsSliceLast_idem]

/-- `markFn` never changes an anchor's id. -/
theorem markFn_id (markId : String) (a : Anchor) :
    (markFn markId a).id = a.id := by
  unfold markFn
  by_cases h : (a.id == markId) = true <;> simp [h]

/-- `markFn` never lowers an anchor's `isUsed` flag. -/
theorem markFn_used (markId : String) (a : Anchor) (h : a.isUsed = true) :
    (markFn markId a).isUsed = true := by
  unfold markFn
  by_cases hm : (a.id == markId) = true <;> simp [hm, h]

/-- Mapping `markFn` over an anchor list preserves a found `isUsed = true`
flag. -/
theorem find?_isUsed_map_markFn (markId anchorId : String) (l : List Anchor)
    (h : (l.find? (fun a => a.id == anchorId)).map Anchor.isUsed = some true) :
    ((l.map (markFn markId)).find? (fun a => a.id == anchorId)).map Anchor.isUsed
      = some true := by
  induction l with
  | nil => simp at h
  | cons x xs ih =>
    cases hx : (x.id == anchorId) with
    | true =>
      simp only [List.find?_cons, hx, Option.map_some', Option.some.injEq] at h
      simp only [List.map_cons, List.find?_cons, markFn_id, hx,
        Option.map_some', Option.some.injEq]
      exact markFn_used markId x h
    | false =>
      simp only [List.find?_cons, hx] at h
      simp only [List.map_cons, List.find?_cons, markFn_id, hx]
      exact ih h

/-- Filtering with a predicate that keeps every used anchor preserves a
found `isUsed = true` flag. -/
theorem find?_isUsed_filter (q : Anchor → Bool)
    (hq : ∀ a, a.isUsed = true → q a = true) (anchorId : String)
    (l : List Anchor)
    (h : (l.find? (fun a => a.id == anchorId)).map Anchor.isUsed = some true) :
    ((l.filter q).find? (fun a => a.id == anchorId)).map Anchor.isUsed
      = some true := by
  induction l with
  | nil => simp at h
  | cons x xs ih =>
    cases hx : (x.id == anchorId) with
    | true =>
      simp only [List.find?_cons, hx, Option.map_some', Option.some.injEq] at h
      rw [List.filter_cons_of_pos (hq x h)]
      simp only [List.find?_cons, hx, Option.map_some', Option.some.injEq]
      exact h
    | false =>
      simp only [List.find?_cons, hx] at h
      cases hqx : q x with
      | true =>
        rw [List.filter_cons_of_pos hqx]
        simp only [List.find?_cons, hx]
        exact ih h
      | false =>
        rw [List.filter_cons_of_neg (by simp [hqx])]
        exact ih h

/-- A single local State Tracker operation never lowers a found
`isUsed = true` flag. -/
theorem applyTrackerOp_preserves_used (card : StateCard) (op : TrackerOp)
    (anchorId : String) (h : lookupAnchorUsed card anchorId = some true) :
    lookupAnchorUsed (applyTrackerOp card op) anchorId = some true := by
  cases op with
  | markUsed m => exact find?_isUsed_map_markFn m anchorId card.anchors h
  | cleanup n =>
    exact find?_isUsed_filter (keepAnchor n)
      (fun a ha => by simp [keepAnchor, ha]) anchorId card.anchors h

/-- Claim C6 (amended): across every sequence of the local State Tracker
operations `markAnchorAsUsed` and `cleanupStateCard`, an anchor's
`isUsed` flag, once true, stays true — so it transitions false→true at
most once and never true→false.  `updateStateCard` is excluded: its
anchors are taken verbatim from the external generation result, which the
code does not constrain (see the counterexample). -/
theorem anchor_isUsed_monotone (ops : List TrackerOp) (card : StateCard)
    (anchorId : String) (h : lookupAnchorUsed card anchorId = some true) :
    lookupAnchorUsed (ops.foldl applyTrackerOp card) anchorId = some true := by
  induction ops generalizing card with
  | nil => exact h
  | cons op ops ih =>
    exact ih (applyTrackerOp card op)
      (applyTrackerOp_preserves_used card op anchorId h)

/-- Claim C6 witness: a concrete used anchor stays used across a cleanup,
an unrelated mark, and another cleanup. -/
theorem anchor_isUsed_monotone_witness :
    lookupAnchorUsed cardC6 anchorIdKey = some true ∧
    lookupAnchorUsed (opsC6.foldl applyTrackerOp cardC6) anchorIdKey
      = some true :=
  ⟨rfl, anchor_isUsed_monotone opsC6 cardC6 anchorIdKey rfl⟩

/-- Claim C6 counterexample: `updateStateCard` with a schema-valid
generation result can revert a used anchor to unused — the claim's
"never true back to false" fails on the update operation at this concrete
input. -/
theorem updateStateCard_reverts_used_anchor :
    lookupAnchorUsed cardC6 anchorIdKey = some true ∧
    lookupAnchorUsed
        (updateStateCard cardC6 sceneParentSample Choice.A [] genC6)
        anchorIdKey
      = some false :=
  ⟨rfl, rfl⟩

/-- Claim C4: when the rolling window lacks the requested branch's
pre-generated candidate, `processChoice` fails with the
no-pregenerated-scene error, performs no synchronous generation (the
result does not depend on the generation parameters), and leaves the
orchestrator state — including the episode and its status — unchanged. -/
theorem processChoice_no_pregenerated (st : OrchState) (choice : Choice)
    (stateUpdateResult : Option StateCard)
    (optionAResult optionBResult : Except JsError Scene)
    (h : (match choice with
          | Choice.A => st.scenarioWindow.optionA
          | Choice.B => st.scenarioWindow.optionB) = none) :
    processChoice st choice stateUpdateResult optionAResult optionBResult
      = (st, Except.error ⟨noPregeneratedSceneMessage⟩) := by
  cases choice <;> simp_all [processChoice]

/-- Claim C4 witness: choice A against a window holding only `optionB`
fails with the no-pregenerated-scene error and leaves the active episode
untouched, even though both generation parameters are supplied. -/
theorem processChoice_no_pregenerated_witness :
    orchStateC4.scenarioWindow.optionA = none ∧
    orchStateC4.scenarioWindow.optionB = some sceneChildB ∧
    orchStateC4.episode.status = EpisodeStatus.active ∧
    processChoice orchStateC4 Choice.A (some sampleCard)
        (Except.ok sceneChildA) (Except.ok sceneChildB)
      = (orchStateC4, Except.error ⟨noPregeneratedSceneMessage⟩) :=
  ⟨rfl, rfl, rfl,
    processChoice_no_pregenerated orchStateC4 Choice.A (some sampleCard)
      (Except.ok sceneChildA) (Except.ok sceneChildB) rfl⟩

/-- Claim C3 counterexample: with branch A failing and branch B
succeeding, `coordinateChildGeneration` (which awaits both branches with
`Promise.all`) stores nothing — `optionB` remains absent even though its
candidate was generated successfully, refuting the claim at this concrete
input. -/
theorem branch_failure_discards_sibling :
    (coordinateChildGeneration windowC3 (Except.error genFailC3)
        (Except.ok sceneChildB)).1.optionB = none ∧
    (coordinateChildGeneration windowC3 (Except.error genFailC3)
        (Except.ok sceneChildB)).2 = Except.error genFailC3 :=
  ⟨rfl, rfl⟩

/-- Claim C3 (amended): the two branch generations are awaited together
with `Promise.all`, so the rolling window's options are updated only when
both branches succeed; if either branch fails, the whole child-generation
step fails and neither candidate — not even the successful one — is
stored. -/
theorem coordinateChildGeneration_all_or_nothing (window : ScenarioWindow)
    (optionAResult optionBResult : Except JsError Scene) :
    (∀ a b, optionAResult = Except.ok a → optionBResult = Except.ok b →
        coordinateChildGeneration window optionAResult optionBResult
          = ({ window with optionA := some a, optionB := some b },
              Except.ok ())) ∧
    (∀ e, optionAResult = Except.error e →
        (coordinateChildGeneration window optionAResult optionBResult).1
          = window) ∧
    (∀ e, optionBResult = Except.error e →
        (coordinateChildGeneration window optionAResult optionBResult).1
          = window) := by
  refine ⟨?_, ?_, ?_⟩
  · rintro a b rfl rfl
    rfl
  · rintro e rfl
    cases optionBResult <;> rfl
  · rintro e rfl
    cases optionAResult <;> rfl

/-- Claim C3 (amended) witness: both-success stores both candidates; a
failing branch A leaves the concrete window unchanged. -/
theorem coordinateChildGeneration_all_or_nothing_witness :
    coordinateChildGeneration windowC3 (Except.ok sceneChildA)
        (Except.ok sceneChildB)
      = ({ windowC3 with optionA := some sceneChildA, optionB := some sceneChildB },
          Except.ok ()) ∧
    (coordinateChildGeneration windowC3 (Except.error genFailC3)
        (Except.ok sceneChildB)).1 = windowC3 :=
  ⟨(coordinateChildGeneration_all_or_nothing windowC3 _ _).1
      sceneChildA sceneChildB rfl rfl,
    (coordinateChildGeneration_all_or_nothing windowC3 _ _).2.1
      genFailC3 rfl⟩

/-- If a predicate finds nothing in the first list, `find?` over the
concatenation searches the second list. -/
theorem find?_append_of_none (p : α → Bool) (l1 l2 : List α)
    (h : l1.find? p = none) : (l1 ++ l2).find? p = l2.find? p := by
  induction l1 with
  | nil => simp
  | cons x xs ih =>
    cases hx : p x with
    | true =>
      rw [List.find?_cons_of_pos _ hx] at h
      simp at h
    | false =>
      have hx2 : ¬ p x = true := by simp [hx]
      rw [List.find?_cons_of_neg _ hx2] at h
      rw [List.cons_append, List.find?_cons_of_neg _ hx2]
      exact ih h

/-- An empty Bible filter means no row matches the episode id. -/
theorem biblesFor_nil_no_match (tbl : List BibleRow) (epId : String)
    (h : biblesFor tbl epId = []) :
    ∀ r ∈ tbl, ¬ (r.episodeId == epId) = true := by
  intro r hr hbeq
  have hmem : r ∈ biblesFor tbl epId := List.mem_filter.mpr ⟨hr, hbeq⟩
  rw [h] at hmem
  exact absurd hmem (List.not_mem_nil r)

/-- A start call against a table with no Bible for the episode creates
and persists the Story Director's Bible. -/
theorem startStep_fresh (tbl : List BibleRow) (freshId : Nat)
    (epId : String) (b : EpisodeBible) (h : biblesFor tbl epId = []) :
    startEpisodeBibleStep tbl freshId epId b
      = (tbl ++ [⟨freshId, epId, b⟩], b) := by
  have hall := biblesFor_nil_no_match tbl epId h
  have hfind : tbl.find? (fun r => r.episodeId == epId) = none :=
    List.find?_eq_none.mpr hall
  have hany : tbl.any (fun r => r.episodeId == epId) = false := by
    simp only [List.any_eq_false]
    exact hall
  simp [startEpisodeBibleStep, loadEpisodeBibleDb, saveEpisodeBibleDb,
    hfind, hany]

/-- A start call against a table that already holds a Bible for the
episode loads it and leaves the table unchanged. -/
theorem startStep_existing (tbl : List BibleRow) (freshId : Nat)
    (epId : String) (b existing : EpisodeBible)
    (h : loadEpisodeBibleDb tbl epId = some existing) :
    startEpisodeBibleStep tbl freshId epId b = (tbl, existing) := by
  simp [startEpisodeBibleStep, h]

/-- Once a Bible is loadable for the episode, every further start call
returns it and never changes the table. -/
theorem runStartCalls_steady (epId : String) (b0 : EpisodeBible) :
    ∀ (cs : List (Nat × EpisodeBible)) (tbl : List BibleRow),
      loadEpisodeBibleDb tbl epId = some b0 →
      runStartCalls tbl epId cs = (tbl, List.replicate cs.length b0) := by
  intro cs
  induction cs with
  | nil =>
    intro tbl h
    simp [runStartCalls]
  | cons c cs ih =>
    intro tbl h
    simp [runStartCalls, startStep_existing tbl c.1 epId c.2 b0 h,
      ih tbl h, List.replicate_succ]

/-- Claim C1: for any sequence of start calls against the same episode
id beginning from a table with no Bible for that episode, exactly one
Bible row is ever persisted — it holds the first call's Bible — and
every call (the later ones included) hands back that same first Bible:
later calls load the existing row instead of creating a second one.  The
guard is enforced twice: by the check-then-create workflow the
orchestrator's system prompt scripts, and independently by the
`episode_bibles(episode_id)` unique index, which makes a second
`saveEpisodeBible` upsert fail rather than insert. -/
theorem single_bible_invariant (epId : String) (c : Nat × EpisodeBible)
    (cs : List (Nat × EpisodeBible)) (tbl0 : List BibleRow)
    (h0 : biblesFor tbl0 epId = []) :
    (biblesFor (runStartCalls tbl0 epId (c :: cs)).1 epId).map BibleRow.bible
        = [c.2] ∧
    (runStartCalls tbl0 epId (c :: cs)).2
        = List.replicate (cs.length + 1) c.2 := by
  have hstep := startStep_fresh tbl0 c.1 epId c.2 h0
  have hfind0 : tbl0.find? (fun r => r.episodeId == epId) = none :=
    List.find?_eq_none.mpr (biblesFor_nil_no_match tbl0 epId h0)
  have hload1 : loadEpisodeBibleDb (tbl0 ++ [⟨c.1, epId, c.2⟩]) epId
      = some c.2 := by
    unfold loadEpisodeBibleDb
    rw [find?_append_of_none _ tbl0 _ hfind0]
    simp
  have hfilter1 : biblesFor (tbl0 ++ [⟨c.1, epId, c.2⟩]) epId
      = [⟨c.1, epId, c.2⟩] := by
    unfold biblesFor at h0 ⊢
    rw [List.filter_append, h0]
    simp
  have hrest := runStartCalls_steady epId c.2 cs (tbl0 ++ [⟨c.1, epId, c.2⟩])
    hload1
  have hcalls : runStartCalls tbl0 epId (c :: cs)
      = (tbl0 ++ [⟨c.1, epId, c.2⟩],
          c.2 :: List.replicate cs.length c.2) := by
    simp [runStartCalls, hstep, hrest]
  rw [hcalls]
  constructor
  · rw [hfilter1]
    simp
  · simp [List.replicate_succ]

/-- Claim C1 witness: from an empty table, two start calls (the second
one with a different freshly generated Bible) persist exactly the first
Bible once, and both calls hand back the first Bible. -/
theorem single_bible_invariant_witness :
    biblesFor ([] : List BibleRow) epIdW = [] ∧
    (biblesFor (runStartCalls [] epIdW [(1, bibleFirst), (2, bibleSecond)]).1
        epIdW).map BibleRow.bible = [bibleFirst] ∧
    (runStartCalls [] epIdW [(1, bibleFirst), (2, bibleSecond)]).2
      = List.replicate 2 bibleFirst :=
  ⟨rfl,
    (single_bible_invariant epIdW (1, bibleFirst) [(2, bibleSecond)] [] rfl).1,
    (single_bible_invariant epIdW (1, bibleFirst) [(2, bibleSecond)] [] rfl).2⟩

/-- Claim C2: at the speculative child-generation call site
(`coordinateChildScenario`), `scenePlanner.generateScene` — whose
declared positional parameters are `premise, episodeBible, stateCard,
sceneNumber, callbackSuggestion` — receives only four arguments, the
position of the `episodeBible` parameter being occupied by the projected
StateCard (and `stateCard` by the scene number): the episode's WorldBible
is not among the arguments at all, contradicting the claim. -/
theorem childScenario_bible_slot_gets_statecard :
    (coordinateChildScenarioSceneArgs premiseC2 sampleCard sceneParentSample
        Choice.A suggestionC2).length = 4 ∧
    generateSceneParamNames.length = 5 ∧
    (coordinateChildScenarioSceneArgs premiseC2 sampleCard sceneParentSample
        Choice.A suggestionC2)[1]?
      = some (JsArg.cardArg
          (projectStateForChoice sampleCard sceneParentSample Choice.A)) ∧
    (coordinateChildScenarioSceneArgs premiseC2 sampleCard sceneParentSample
        Choice.A suggestionC2).all (fun a => !a.isBibleArg) = true :=
  ⟨rfl, rfl, rfl, rfl⟩

/-- Claim C9 (amended): every music cue built by `generateSceneMusic`
from a `MusicTrackSchema`-valid generation result has its duration within
[10000, 300000] milliseconds; the instrumental flag and realized prompt
are copied verbatim from the generation result and are not validated by
the schema or by any code. -/
theorem generateSceneMusic_schema_bounds (bible : EpisodeBible)
    (narration : String) (sceneNumber estimatedDurationSeconds : Int)
    (track : MusicTrack) (h : MusicTrackSchemaValid track) :
    10000 ≤ (generateSceneMusic bible narration sceneNumber
        estimatedDurationSeconds track).durationMs ∧
    (generateSceneMusic bible narration sceneNumber
        estimatedDurationSeconds track).durationMs ≤ 300000 ∧
    (generateSceneMusic bible narration sceneNumber
        estimatedDurationSeconds track).isInstrumental
      = track.isInstrumental ∧
    (generateSceneMusic bible narration sceneNumber
        estimatedDurationSeconds track).elevenLabsPrompt = track.prompt :=
  ⟨h.1, h.2, rfl, rfl⟩

/-- Claim C9 (amended) witness: a concrete schema-valid track yields a
cue whose duration respects the bounds. -/
theorem generateSceneMusic_schema_bounds_witness :
    MusicTrackSchemaValid trackC9ok ∧
    10000 ≤ (generateSceneMusic sampleBible narrationSample 1 180
        trackC9ok).durationMs :=
  ⟨by decide,
    (generateSceneMusic_schema_bounds sampleBible narrationSample 1 180
        trackC9ok (by decide)).1⟩

/-- Claim C9 counterexample: a generation result that passes
`MusicTrackSchema` validation can have `isInstrumental = false` and a
prompt with no instrumental-only marker, and `generateSceneMusic` then
produces exactly such a cue — the claim's flag and marker conjuncts fail
at this concrete input. -/
theorem generateSceneMusic_unvalidated :
    MusicTrackSchemaValid trackC9 ∧
    MusicAudioCue.isInstrumental
        (generateSceneMusic sampleBible narrationSample 1 180 trackC9)
      = false ∧
    hasInstrumentalMarker (MusicAudioCue.elevenLabsPrompt
        (generateSceneMusic sampleBible narrationSample 1 180 trackC9))
      = false :=
  ⟨by decide, rfl, by decide⟩

/-- Claim C10: every SFX batch built from an `SFXSchema`-valid generation
result has at most 8 entries, each specified duration within [0.5, 30]
seconds and each prompt influence within [0, 1]; and the dedicated
ambient-soundscape generator always returns a cue with `loop = true` and
a duration within [15, 30] seconds. -/
theorem generateSceneSFX_and_ambient_bounds (bible : EpisodeBible)
    (narration : String) (sceneNumber : Int) (gen : List SFXItem)
    (sceneLocation sceneAtmosphere : String) (agen : AmbientSoundGen)
    (hg : SFXSchemaValid gen) (ha : AmbientSchemaValid agen) :
    (generateSceneSFX bible narration sceneNumber gen).length ≤ 8 ∧
    (∀ c ∈ generateSceneSFX bible narration sceneNumber gen,
        (∀ d, c.durationSeconds = some d → (1 / 2 : ℚ) ≤ d ∧ d ≤ 30) ∧
        0 ≤ c.promptInfluence ∧ c.promptInfluence ≤ 1) ∧
    SFXAudioCue.loop
        (generateAmbientSoundscape bible sceneLocation sceneAtmosphere agen)
      = true ∧
    SFXAudioCue.durationSeconds
        (generateAmbientSoundscape bible sceneLocation sceneAtmosphere agen)
      = some agen.durationSeconds ∧
    15 ≤ agen.durationSeconds ∧ agen.durationSeconds ≤ 30 := by
  refine ⟨?_, ?_, rfl, rfl, ha.1, ha.2.1⟩
  · simpa [generateSceneSFX] using hg.1
  · intro c hc
    obtain ⟨i, hi, rfl⟩ := List.mem_map.mp hc
    exact ⟨fun d hd => (hg.2 i hi).1 d hd,
      (hg.2 i hi).2.1, (hg.2 i hi).2.2⟩

/-- Claim C10 witness: a concrete schema-valid batch of one entry and a
concrete valid ambient generation satisfy the bounds. -/
theorem generateSceneSFX_and_ambient_bounds_witness :
    SFXSchemaValid [sfxItemW] ∧ AmbientSchemaValid ambientGenW ∧
    (generateSceneSFX sampleBible narrationSample 1 [sfxItemW]).length ≤ 8 ∧
    (generateAmbientSoundscape sampleBible (narrationSample)
        (narrationSample) ambientGenW).loop = true := by
  have hg : SFXSchemaValid [sfxItemW] := by
    refine ⟨by norm_num, ?_⟩
    intro i hi
    simp only [List.mem_singleton] at hi
    subst hi
    refine ⟨?_, by norm_num [sfxItemW], by norm_num [sfxItemW]⟩
    intro d hd
    have hd3 : d = 3 := by
      simpa [sfxItemW] using hd.symm
    subst hd3
    norm_num
  have ha : AmbientSchemaValid ambientGenW := by
    refine ⟨by norm_num [ambientGenW], by norm_num [ambientGenW],
      by norm_num [ambientGenW], by norm_num [ambientGenW]⟩
  exact ⟨hg, ha,
    (generateSceneSFX_and_ambient_bounds sampleBible narrationSample 1
        [sfxItemW] narrationSample narrationSample ambientGenW hg ha).1,
    (generateSceneSFX_and_ambient_bounds sampleBible narrationSample 1
        [sfxItemW] narrationSample narrationSample ambientGenW hg ha).2.2.1⟩

end PodcastShow
